import Mathlib

/-
Verification development for python_ghost_cursor (playwright_async/_spoof.py).

The GhostCursor class is embedded shallowly: the mutable object state
(previous, moving, is_mobile, the two overshoot constants) becomes an
explicit CursorState record, and every awaited collaborator call
(page.mouse.move, page.query_selector, element.bounding_box,
page.evaluate, the CDP random-page-point query, asyncio.ensure_future)
as well as every call into the shared random helpers (path,
should_overshoot, overshoot, get_random_box_point, random.random) is
resolved through an explicit environment record Env.  Calls that consume
one outcome per invocation (pointer dispatches, the mobile-detection
evaluate, random draws) are indexed by a call counter threaded through
the functions.  Concurrent flips of the shared `moving` flag, which
trace_path observes between steps when called from the background
random_move loop, are modelled by the oracle Env.moving_at, indexed by
the step number.  A Python exception raised by a collaborator is a
distinguished outcome value; an exception that the source code lets
escape becomes an `error` field in the result record (with the mutated
state alongside, as Python exceptions do not roll state back), and an
exception the source catches is consumed inside the definition exactly
where the `try/except` sits in the source.  Coordinates are rationals.
-/

namespace Ghost

/-- Embedding of the 2D point type `Vector` from
`python_ghost_cursor.shared._math`, with rational coordinates. -/
structure Vector where
  x : ℚ
  y : ℚ
deriving DecidableEq, Repr

/-- Modelled from the spec: `origin` from `python_ghost_cursor.shared._math`
(that module is not under src); the spec fixes the default start as the
origin point (0, 0). -/
def origin : Vector := ⟨0, 0⟩

/-- Embedding of the dict-shaped bounding box exchanged with the browser
binding layer (`x`, `y`, `width`, `height`). -/
structure Box where
  x : ℚ
  y : ℚ
  width : ℚ
  height : ℚ
deriving DecidableEq, Repr

/-- Outcome of one `page.mouse.move` dispatch: it succeeds, it raises while
`page.browser.is_connected()` still reports true, or it raises with the
browser reported disconnected. -/
inductive DispatchOutcome where
  | ok
  | failConnected
  | failDisconnected
deriving DecidableEq, Repr

/-- Observable events of a run: trace_path invocations with their vector
list and abort flag, attempted pointer dispatches with their outcome,
mouse button and touchscreen primitives (with whether the call
succeeded), asyncio sleeps (seconds), and `page.evaluate` mobile-detection
queries (`none` means the evaluate call raised). -/
inductive Event where
  | traceCall (vectors : List Vector) (abortOnMove : Bool)
  | dispatch (v : Vector) (outcome : DispatchOutcome)
  | mouseDown (ok : Bool)
  | mouseUp (ok : Bool)
  | tap (x y : ℚ) (ok : Bool)
  | sleep (seconds : ℚ)
  | mobileQuery (result : Option Bool)
deriving DecidableEq, Repr

/-- Embedding of the mutable fields set by `GhostCursor.__init__`:
`previous`, `moving`, `is_mobile`, `overshoot_spread`, `overshoot_radius`. -/
structure CursorState where
  previous : Vector
  moving : Bool
  is_mobile : Option Bool
  overshoot_spread : ℚ
  overshoot_radius : ℚ
deriving DecidableEq, Repr

/-- Embedding of `GhostCursor.__init__(page, start)`: position starts at
`start`, the suppression flag is clear, mobile detection is uncached, and
the overshoot constants are 10 and 120. -/
def ghost_cursor_init (start : Vector) : CursorState :=
  ⟨start, false, none, 10, 120⟩

/-- Environment of one run: outcomes of every external collaborator call
and every random draw the source makes.  `moving_at i` is the value of the
shared `self.moving` flag that `trace_path` observes at its step `i`
(concurrent tasks may flip it between steps); `dispatch_at i` is the
outcome of the i-th `page.mouse.move`; `evaluate_mobile q` is the result
of the q-th mobile-detection `page.evaluate` (`none` = the call raised);
`random_page_point` is the CDP-backed random viewport point (`none` = the
query raised); `path_point`, `path_box`, `should_overshoot`, `overshoot`
and `get_random_box_point` are the randomized helpers imported from
`python_ghost_cursor.shared`, whose modules are not under src, so their
values are supplied by the environment; `rand_at k` is the k-th
`random.random()` draw. -/
structure Env where
  moving_at : Nat → Bool
  dispatch_at : Nat → DispatchOutcome
  waitForSelectorOk : Bool
  selectorFound : Bool
  scrollOk : Bool
  boundingBox : Option Box
  get_random_box_point : Box → Option ℚ → Vector
  should_overshoot : Vector → Vector → Bool
  overshoot : Vector → ℚ → Vector
  path_point : Vector → Vector → List Vector
  path_box : Vector → Box → ℚ → List Vector
  evaluate_mobile : Nat → Option Bool
  random_page_point : Option Vector
  ensureFutureOk : Bool
  downOk : Bool
  upOk : Bool
  tapOk : Bool
  rand_at : Nat → ℚ

/-- Result of a `trace_path` run: the final value of `self.previous`, the
events emitted (one `Event.dispatch` per attempted `page.mouse.move`),
and the next dispatch-oracle index. -/
structure TraceResult where
  previous : Vector
  events : List Event
  next : Nat
deriving DecidableEq, Repr

/-- Embedding of `GhostCursor.trace_path(vectors, abort_on_move)`.  For each
vector: when `abort_on_move` is set and the observed `moving` flag is true,
return at once; otherwise attempt the dispatch.  On success `self.previous`
becomes that vector and the loop continues; on a raise with the browser
still connected the exception is caught, a warning is logged, `previous`
is left unchanged and the loop continues with the next vector; on a raise
with the browser disconnected the function returns immediately.  The
function never lets an exception escape. -/
def trace_path (env : Env) (abortOnMove : Bool) (i : Nat) (prev : Vector) :
    List Vector → TraceResult
  | [] => ⟨prev, [], i⟩
  | v :: rest =>
    if abortOnMove && env.moving_at i then ⟨prev, [], i⟩
    else
      match env.dispatch_at i with
      | .ok =>
        let r := trace_path env abortOnMove (i + 1) v rest
        ⟨r.previous, Event.dispatch v .ok :: r.events, r.next⟩
      | .failConnected =>
        let r := trace_path env abortOnMove (i + 1) prev rest
        ⟨r.previous, Event.dispatch v .failConnected :: r.events, r.next⟩
      | .failDisconnected =>
        ⟨prev, [Event.dispatch v .failDisconnected], i + 1⟩

/-- Embedding of `GhostCursor.toggle_random_move(random_)`: the suppression
flag becomes the negation of the argument. -/
def toggle_random_move (st : CursorState) (random_ : Bool) : CursorState :=
  { st with moving := !random_ }

/-- Selector argument of `move`/`click`: a CSS selector string or an
already-resolved ElementHandle. -/
inductive Sel where
  | str (s : String)
  | handle
deriving DecidableEq, Repr

/-- Exceptions `move` can raise (all are plain `Exception` in the source;
they are distinguished here by raise site): a `wait_for_selector` timeout,
the element-not-found raise at line 146, a raise from
`scroll_into_view_if_needed`, and the bounding-box-is-None raise at
line 158. -/
inductive MoveError where
  | waitForSelectorTimeout
  | elementNotFound
  | scrollFailed
  | boundingBoxUnavailable
deriving DecidableEq, Repr

/-- Result of a `move` run: the escaped exception if any (with the state as
the exception left it), the events emitted, and the next dispatch index. -/
structure MoveResult where
  error : Option MoveError
  st : CursorState
  events : List Event
  next : Nat
deriving DecidableEq, Repr

/-- Truthiness of the optional `wait_for_selector` argument, as tested by
Python's `if wait_for_selector:` (None and 0 are falsy). -/
def truthy (w : Option ℚ) : Bool :=
  match w with
  | none => false
  | some t => decide (t ≠ 0)

/-- Embedding of `GhostCursor.move` from the point where the element is
resolved (`elem.scroll_into_view_if_needed()` onwards, lines 155-181):
obtain the bounding box (raising if None), pick a random point inside it,
consult `should_overshoot`, trace `path(previous, to)` where `to` is the
overshoot point or the destination, then when overshooting trace the
correction `path(to, bounding_box, overshoot_spread)` with the box
re-anchored at the destination point, and finally set `previous` to the
destination and clear the suppression flag. -/
def move_resolved (env : Env) (st : CursorState) (padding : Option ℚ)
    (i : Nat) : MoveResult :=
  if !env.scrollOk then ⟨some .scrollFailed, st, [], i⟩
  else
    match env.boundingBox with
    | none => ⟨some .boundingBoxUnavailable, st, [], i⟩
    | some box =>
      let destination := env.get_random_box_point box padding
      let overshooting := env.should_overshoot st.previous destination
      let toV :=
        if overshooting then env.overshoot destination st.overshoot_radius
        else destination
      let p1 := env.path_point st.previous toV
      let r1 := trace_path env false i st.previous p1
      if overshooting then
        let bounding_box : Box := ⟨destination.x, destination.y, box.width, box.height⟩
        let correction := env.path_box toV bounding_box st.overshoot_spread
        let r2 := trace_path env false r1.next r1.previous correction
        ⟨none, { st with previous := destination, moving := false },
          Event.traceCall p1 false :: r1.events ++
            Event.traceCall correction false :: r2.events, r2.next⟩
      else
        ⟨none, { st with previous := destination, moving := false },
          Event.traceCall p1 false :: r1.events, r1.next⟩

/-- Embedding of `GhostCursor.move(selector, padding_percentage,
wait_for_selector)`: the suppression flag is set first; a string selector
is optionally awaited (raising on timeout) and then queried, raising if
the element is not found; an ElementHandle is used as is; then control
passes to the resolved phase. -/
def move (env : Env) (st0 : CursorState) (selector : Sel)
    (padding : Option ℚ) (wait_for_selector : Option ℚ) (i : Nat) : MoveResult :=
  let st := toggle_random_move st0 false
  match selector with
  | .str _ =>
    if truthy wait_for_selector && !env.waitForSelectorOk then
      ⟨some .waitForSelectorTimeout, st, [], i⟩
    else if !env.selectorFound then
      ⟨some .elementNotFound, st, [], i⟩
    else move_resolved env st padding i
  | .handle => move_resolved env st padding i

/-- Result of one `detect_mobile` call: the returned value (`none` = the
`page.evaluate` raised and the exception escaped), the state, the next
evaluate-oracle index, and the events (one `mobileQuery` per issued
evaluate). -/
structure MobileResult where
  result : Option Bool
  st : CursorState
  next : Nat
  events : List Event
deriving DecidableEq, Repr

/-- Embedding of `GhostCursor.detect_mobile`: when `is_mobile` is already
cached the cached value is returned and no query is issued; otherwise one
`page.evaluate` is issued, and on success its result is stored in
`is_mobile` and returned (on a raise nothing is stored and the exception
escapes). -/
def detect_mobile (env : Env) (q : Nat) (st : CursorState) : MobileResult :=
  match st.is_mobile with
  | some b => ⟨some b, st, q, []⟩
  | none =>
    match env.evaluate_mobile q with
    | none => ⟨none, st, q + 1, [Event.mobileQuery none]⟩
    | some b => ⟨some b, { st with is_mobile := some b }, q + 1,
        [Event.mobileQuery (some b)]⟩

/-- Iterates `detect_mobile` a given number of times on one controller,
collecting the per-call results and concatenating the events. -/
structure CallsResult where
  results : List (Option Bool)
  st : CursorState
  next : Nat
  events : List Event
deriving DecidableEq, Repr

/-- Runs `detect_mobile` n times in sequence, threading state and the
evaluate-oracle index. -/
def detect_mobile_calls (env : Env) (q : Nat) (st : CursorState) :
    Nat → CallsResult
  | 0 => ⟨[], st, q, []⟩
  | n + 1 =>
    let d := detect_mobile env q st
    let r := detect_mobile_calls env d.next d.st n
    ⟨d.result :: r.results, r.st, r.next, d.events ++ r.events⟩

/-- Result of a `click` run: the escaped exception if any (only a `move`
raise can escape; the press/tap phase catches its own failures), the
state, and the events. -/
structure ClickResult where
  error : Option MoveError
  st : CursorState
  events : List Event
deriving DecidableEq, Repr

/-- Embedding of the `try`-block-onwards tail of `GhostCursor.click`
(lines 117-131): detect mobile; on a non-mobile device press the mouse
button, sleep `wait_for_click / 1000` seconds when that argument was
given, and release; on a mobile device tap at the target coordinates; any
exception in that block (including one from `detect_mobile`) is caught and
logged; then sleep `random.random() * 2` seconds and clear the
suppression flag. -/
def click_tail (env : Env) (st : CursorState) (wait_for_click : Option ℚ)
    (target : Vector) : ClickResult :=
  let d := detect_mobile env 0 st
  let tryEvents :=
    match d.result with
    | none => d.events
    | some b =>
      if !b then
        if env.downOk then
          d.events ++ [Event.mouseDown true] ++
            (match wait_for_click with
             | some t => [Event.sleep (t / 1000)]
             | none => []) ++
            [Event.mouseUp env.upOk]
        else d.events ++ [Event.mouseDown false]
      else d.events ++ [Event.tap target.x target.y env.tapOk]
  ⟨none, toggle_random_move d.st true,
    tryEvents ++ [Event.sleep (env.rand_at 0 * 2)]⟩

/-- Embedding of `GhostCursor.click(selector, padding_percentage,
wait_for_selector, wait_for_click)`: the suppression flag is set and the
target coordinates default to the current position; when a selector is
given, `move` runs first (an exception from it escapes `click`), the flag
is set again and the target coordinates become the post-move position;
then the press/tap tail runs. -/
def click (env : Env) (st0 : CursorState) (selector : Option Sel)
    (padding : Option ℚ) (wait_for_selector : Option ℚ)
    (wait_for_click : Option ℚ) : ClickResult :=
  let st1 := toggle_random_move st0 false
  match selector with
  | some sel =>
    let m := move env st1 sel padding wait_for_selector 0
    match m.error with
    | some e => ⟨some e, m.st, m.events⟩
    | none =>
      let st2 := toggle_random_move m.st false
      let t := click_tail env st2 wait_for_click m.st.previous
      ⟨t.error, t.st, m.events ++ t.events⟩
  | none => click_tail env st1 wait_for_click st1.previous

/-- Embedding of `GhostCursor.move_to(destination)`: set the suppression
flag, trace `path(previous, destination)` (which updates `previous` per
successful dispatch), and clear the flag. -/
def move_to (env : Env) (st0 : CursorState) (dx dy : ℚ) :
    CursorState × List Event :=
  let dest : Vector := ⟨dx, dy⟩
  let st := toggle_random_move st0 false
  let p := env.path_point st.previous dest
  let r := trace_path env false 0 st.previous p
  (toggle_random_move { st with previous := r.previous } true,
    Event.traceCall p false :: r.events)

/-- Result of one iteration of the `random_move` loop: the state, the
events, whether `asyncio.ensure_future(self.random_move())` rescheduled
the next iteration, and whether the bare `except` caught an exception.
The function itself always returns normally — the source wraps the whole
body in `try`/bare-`except`. -/
structure RandomMoveResult where
  st : CursorState
  events : List Event
  rescheduled : Bool
  caught : Bool
deriving DecidableEq, Repr

/-- Embedding of one iteration of `GhostCursor.random_move`: when the
suppression flag is clear, sample a random viewport point (a raise is
caught: log and stop), trace a path to it with `abort_on_move = True`, and
set `previous` to the sampled point; then sleep a random interval and
reschedule the next iteration (a raise from the reschedule is caught: log
and stop).  No exception ever escapes. -/
def random_move (env : Env) (st0 : CursorState) : RandomMoveResult :=
  if !st0.moving then
    match env.random_page_point with
    | none => ⟨st0, [], false, true⟩
    | some rand =>
      let p := env.path_point st0.previous rand
      let r := trace_path env true 0 st0.previous p
      let st1 := { st0 with previous := rand }
      let ev := Event.traceCall p true :: r.events ++
        [Event.sleep (env.rand_at 0 * 2)]
      if env.ensureFutureOk then ⟨st1, ev, true, false⟩
      else ⟨st1, ev, false, true⟩
  else
    let ev := [Event.sleep (env.rand_at 0 * 2)]
    if env.ensureFutureOk then ⟨st0, ev, true, false⟩
    else ⟨st0, ev, false, true⟩

/-- Argument of `create_cursor`: a Vector or an x/y dict (the source
accepts `Union[Vector, Dict]`). -/
inductive StartArg where
  | vec (v : Vector)
  | dict (x y : ℚ)
deriving DecidableEq, Repr

/-- Embedding of `create_cursor(page, start)`: a dict argument is converted
to a Vector, and a fresh GhostCursor is constructed from it. -/
def create_cursor (start : StartArg) : CursorState :=
  match start with
  | .vec v => ghost_cursor_init v
  | .dict x y => ghost_cursor_init ⟨x, y⟩

/-- Embedding of a `create_cursor(page)` call that omits `start`: the
Python default argument is `origin`. -/
def create_cursor_default : CursorState := create_cursor (StartArg.vec origin)

/-- Points for which a `page.mouse.move` dispatch was attempted, in order. -/
def dispatched_vectors : List Event → List Vector
  | [] => []
  | Event.dispatch v _ :: rest => v :: dispatched_vectors rest
  | _ :: rest => dispatched_vectors rest

/-- Vector lists of the `trace_path` invocations recorded in an event
list, in order. -/
def trace_calls : List Event → List (List Vector)
  | [] => []
  | Event.traceCall vs _ :: rest => vs :: trace_calls rest
  | _ :: rest => trace_calls rest

/-- Concrete environment in which every collaborator call succeeds; the
box is the square at the origin with side 10, the random in-box point is
its centre, no overshoot is requested, paths are the one-point path to the
destination, and every random draw is 1/2. -/
def envOk : Env where
  moving_at := fun _ => false
  dispatch_at := fun _ => DispatchOutcome.ok
  waitForSelectorOk := true
  selectorFound := true
  scrollOk := true
  boundingBox := some ⟨0, 0, 10, 10⟩
  get_random_box_point := fun _ _ => ⟨5, 5⟩
  should_overshoot := fun _ _ => false
  overshoot := fun _ _ => ⟨7, 7⟩
  path_point := fun _ b => [b]
  path_box := fun _ b _ => [⟨b.x, b.y⟩]
  evaluate_mobile := fun _ => some false
  random_page_point := some ⟨3, 3⟩
  ensureFutureOk := true
  downOk := true
  upOk := true
  tapOk := true
  rand_at := fun _ => 1 / 2

/-- Variant of `envOk` whose selector query finds no element. -/
def envNotFound : Env := { envOk with selectorFound := false }

/-- Variant of `envOk` in which every pointer dispatch raises while the
browser stays connected. -/
def envDispatchFail : Env :=
  { envOk with dispatch_at := fun _ => DispatchOutcome.failConnected }

/-- Variant of `envOk` in which the first pointer dispatch raises (browser
still connected) and later dispatches succeed. -/
def envFirstDispatchFails : Env :=
  { envOk with dispatch_at := fun n =>
      if n = 0 then DispatchOutcome.failConnected else DispatchOutcome.ok }

/-- Variant of `envOk` in which the first mobile-detection evaluate raises
and the second succeeds (returning true). -/
def envQueryRaises : Env :=
  { envOk with evaluate_mobile := fun q => if q = 0 then none else some true }

/-- Variant of `envOk` whose random draws are 1/4 instead of 1/2. -/
def envOtherRand : Env := { envOk with rand_at := fun _ => 1 / 4 }

/-- Variant of `envOk` in which the second pointer dispatch raises with the
browser disconnected. -/
def envSecondDisconnects : Env :=
  { envOk with dispatch_at := fun n =>
      if n = 1 then DispatchOutcome.failDisconnected else DispatchOutcome.ok }

/-- Variant of `envOk` in which the shared `moving` flag is observed clear
at step 0 and set from step 1 on (an explicit operation started mid-trace). -/
def envFlagFlips : Env := { envOk with moving_at := fun n => decide (0 < n) }

/-- Variant of `envOk` in which `should_overshoot` answers true. -/
def envOvershootYes : Env := { envOk with should_overshoot := fun _ _ => true }

/-- Variant of `envOk` whose element has no bounding box. -/
def envBoxNone : Env := { envOk with boundingBox := none }

/-- Whether the selector-resolution phase of `move` succeeds in `env`: an
ElementHandle always does; a string selector requires the optional
`wait_for_selector` await (when its argument is truthy) not to time out
and the `query_selector` call to find the element. -/
def sel_resolves (env : Env) (sel : Sel) (wfs : Option ℚ) : Bool :=
  match sel with
  | .handle => true
  | .str _ => (!truthy wfs || env.waitForSelectorOk) && env.selectorFound

/-- Dispatch extraction distributes over event-list concatenation. -/
theorem dispatched_vectors_append (a b : List Event) :
    dispatched_vectors (a ++ b) = dispatched_vectors a ++ dispatched_vectors b := by
  induction a with
  | nil => rfl
  | cons e rest ih => cases e <;> simp [dispatched_vectors, ih]

/-- Trace-call extraction distributes over event-list concatenation. -/
theorem trace_calls_append (a b : List Event) :
    trace_calls (a ++ b) = trace_calls a ++ trace_calls b := by
  induction a with
  | nil => rfl
  | cons e rest ih => cases e <;> simp [trace_calls, ih]

/-- A `trace_path` run emits only dispatch events, so it records no nested
trace-call markers. -/
theorem trace_calls_trace_path (env : Env) (ab : Bool) (i : Nat) (prev : Vector)
    (vs : List Vector) : trace_calls (trace_path env ab i prev vs).events = [] := by
  induction vs generalizing i prev with
  | nil => rfl
  | cons v rest ih =>
    simp only [trace_path]
    split
    · rfl
    · cases h : env.dispatch_at i <;> simp [trace_calls, ih]

/-- C1 counterexample: in a two-point trace whose first dispatch raises a
transient error while the browser stays connected, the remaining step
sequence does not stop early — the second point is still dispatched
(successfully), so the claim that the sequence stops after a transient
failure is false on the code. -/
theorem trace_path_transient_stops_cex :
    (trace_path envFirstDispatchFails false 0 ⟨0, 0⟩ [⟨1, 1⟩, ⟨2, 2⟩]).events =
      [Event.dispatch ⟨1, 1⟩ DispatchOutcome.failConnected,
       Event.dispatch ⟨2, 2⟩ DispatchOutcome.ok] := by decide

/-- C2 counterexample: a `move` whose selector query finds no element
raises to the caller with the suppression flag still set (`moving = true`),
so the claim that the flag is cleared on every exit path including error
exits is false on the code. -/
theorem move_error_flag_stays_set_cex :
    (move envNotFound (ghost_cursor_init origin) (Sel.str (String.mk []))
        none none 0).error = some MoveError.elementNotFound ∧
    (move envNotFound (ghost_cursor_init origin) (Sel.str (String.mk []))
        none none 0).st.moving = true := by decide

/-- C3 counterexample: a `move` whose only pointer dispatch raises a
transient error completes without error and still sets `previous` to the
resolved destination (5, 5), although no dispatch of that point (or of any
point) ever succeeded — so the claim that `previous` is only ever set to a
successfully dispatched point is false on the code. -/
theorem move_previous_not_dispatched_cex :
    (move envDispatchFail (ghost_cursor_init origin) Sel.handle none none 0).error
        = none ∧
    (move envDispatchFail (ghost_cursor_init origin) Sel.handle none none 0).st.previous
        = ⟨5, 5⟩ ∧
    Event.dispatch ⟨5, 5⟩ DispatchOutcome.ok ∉
      (move envDispatchFail (ghost_cursor_init origin) Sel.handle none none 0).events := by
  decide

/-- C8 counterexample: in a fully successful `click` on a non-touch surface
with `wait_for_click` omitted, the press is immediately followed by the
release — there is no hold delay between them at all — and the segment up
to the release is identical under a different random source (only the
final pause changes), so the claim that the hold duration between press
and release is randomized is false on the code. -/
theorem click_hold_not_randomized_cex :
    (click envOk (ghost_cursor_init origin) (some Sel.handle) none none none).events =
      [Event.traceCall [⟨5, 5⟩] false, Event.dispatch ⟨5, 5⟩ DispatchOutcome.ok,
       Event.mobileQuery (some false), Event.mouseDown true, Event.mouseUp true,
       Event.sleep 1] ∧
    (click envOtherRand (ghost_cursor_init origin) (some Sel.handle) none none none).events =
      [Event.traceCall [⟨5, 5⟩] false, Event.dispatch ⟨5, 5⟩ DispatchOutcome.ok,
       Event.mobileQuery (some false), Event.mouseDown true, Event.mouseUp true,
       Event.sleep (1 / 2)] := by
  constructor <;>
    norm_num [click, move, move_resolved, click_tail, detect_mobile, trace_path,
      toggle_random_move, ghost_cursor_init, envOk, envOtherRand, origin]

/-- C10 counterexample: when the first mobile-detection evaluate raises,
nothing is cached, so a second `detect_mobile` call issues a second query —
two queries are issued on one controller instance, so the claim that the
surface is queried at most once per controller instance is false on the
code. -/
theorem detect_mobile_two_queries_cex :
    (detect_mobile_calls envQueryRaises 0 (ghost_cursor_init origin) 2).events =
      [Event.mobileQuery none, Event.mobileQuery (some true)] := by decide

/-- C1 (amended): failure semantics of trace_path.  A transient dispatch
failure, raised while the browser is still connected, is caught and logged
and tracing continues with the remaining points — when no dispatch reports
the browser disconnected, every point of the sequence is attempted and no
exception escapes; when the dispatch at step k raises with the browser
disconnected, trace_path returns immediately after that attempt, so the
attempted points are exactly the first k+1. -/
theorem trace_path_failure_semantics :
    (∀ (env : Env) (vs : List Vector) (i : Nat) (prev : Vector),
      (∀ j, j < vs.length → env.dispatch_at (i + j) ≠ DispatchOutcome.failDisconnected) →
      dispatched_vectors (trace_path env false i prev vs).events = vs) ∧
    (∀ (env : Env) (vs : List Vector) (i : Nat) (prev : Vector) (k : Nat),
      k < vs.length →
      (∀ j, j < k → env.dispatch_at (i + j) ≠ DispatchOutcome.failDisconnected) →
      env.dispatch_at (i + k) = DispatchOutcome.failDisconnected →
      dispatched_vectors (trace_path env false i prev vs).events = vs.take (k + 1)) := by
  constructor
  · intro env vs
    induction vs with
    | nil => intro i prev _; rfl
    | cons v rest ih =>
      intro i prev h
      have h0 : env.dispatch_at i ≠ DispatchOutcome.failDisconnected := by
        have := h 0 (Nat.succ_pos _)
        simpa using this
      have hshift : ∀ j, j < rest.length →
          env.dispatch_at (i + 1 + j) ≠ DispatchOutcome.failDisconnected := by
        intro j hj
        have := h (j + 1) (by simpa using Nat.succ_lt_succ hj)
        have e : i + 1 + j = i + (j + 1) := by omega
        rw [e]; exact this
      cases hd : env.dispatch_at i with
      | ok => simp [trace_path, hd, dispatched_vectors, ih (i + 1) v hshift]
      | failConnected =>
        simp [trace_path, hd, dispatched_vectors, ih (i + 1) prev hshift]
      | failDisconnected => exact absurd hd h0
  · intro env vs
    induction vs with
    | nil => intro i prev k hk; exact absurd hk (by simp)
    | cons v rest ih =>
      intro i prev k hk hbefore hkd
      cases k with
      | zero =>
        have hd : env.dispatch_at i = DispatchOutcome.failDisconnected := by
          simpa using hkd
        simp [trace_path, hd, dispatched_vectors]
      | succ m =>
        have h0 : env.dispatch_at i ≠ DispatchOutcome.failDisconnected := by
          have := hbefore 0 (Nat.succ_pos _)
          simpa using this
        have hshift : ∀ j, j < m →
            env.dispatch_at (i + 1 + j) ≠ DispatchOutcome.failDisconnected := by
          intro j hj
          have := hbefore (j + 1) (Nat.succ_lt_succ hj)
          have e : i + 1 + j = i + (j + 1) := by omega
          rw [e]; exact this
        have hkd2 : env.dispatch_at (i + 1 + m) = DispatchOutcome.failDisconnected := by
          have e : i + 1 + m = i + (m + 1) := by omega
          rw [e]; exact hkd
        have hm : m < rest.length := by simpa using Nat.lt_of_succ_lt_succ hk
        cases hd : env.dispatch_at i with
        | ok =>
          simp [trace_path, hd, dispatched_vectors, ih (i + 1) v m hm hshift hkd2]
        | failConnected =>
          simp [trace_path, hd, dispatched_vectors, ih (i + 1) prev m hm hshift hkd2]
        | failDisconnected => exact absurd hd h0

/-- Witness for trace_path_failure_semantics: with every dispatch
succeeding, both points of a two-point trace are attempted; and with the
second dispatch reporting the browser disconnected, exactly the first two
of three points are attempted. -/
theorem trace_path_failure_semantics_witness :
    ((∀ j, j < 2 → envOk.dispatch_at (0 + j) ≠ DispatchOutcome.failDisconnected) ∧
      dispatched_vectors (trace_path envOk false 0 origin [⟨1, 1⟩, ⟨2, 2⟩]).events =
        [⟨1, 1⟩, ⟨2, 2⟩]) ∧
    ((1 : Nat) < 3 ∧
      (∀ j, j < 1 → envSecondDisconnects.dispatch_at (0 + j) ≠
        DispatchOutcome.failDisconnected) ∧
      envSecondDisconnects.dispatch_at (0 + 1) = DispatchOutcome.failDisconnected ∧
      dispatched_vectors
        (trace_path envSecondDisconnects false 0 origin [⟨1, 1⟩, ⟨2, 2⟩, ⟨3, 3⟩]).events =
          ([⟨1, 1⟩, ⟨2, 2⟩, ⟨3, 3⟩] : List Vector).take 2) :=
  ⟨⟨by decide, trace_path_failure_semantics.1 envOk [⟨1, 1⟩, ⟨2, 2⟩] 0 origin (by decide)⟩,
   ⟨by decide, by decide, by decide,
    trace_path_failure_semantics.2 envSecondDisconnects [⟨1, 1⟩, ⟨2, 2⟩, ⟨3, 3⟩] 0 origin 1
      (by decide) (by decide) (by decide)⟩⟩

/-- C4 (confirmed): when trace_path runs with abort_on_move set and the
suppression flag is observed clear for the first k steps (whose dispatches
do not report a disconnect) and set at step k, trace_path returns without
error having attempted exactly the k points strictly before the flip; no
point at or after the flip is dispatched. -/
theorem trace_path_abort_on_move (env : Env) (vs : List Vector) :
    ∀ (i : Nat) (prev : Vector) (k : Nat), k < vs.length →
      (∀ j, j < k → env.moving_at (i + j) = false ∧
        env.dispatch_at (i + j) ≠ DispatchOutcome.failDisconnected) →
      env.moving_at (i + k) = true →
      dispatched_vectors (trace_path env true i prev vs).events = vs.take k := by
  induction vs with
  | nil => intro i prev k hk; exact absurd hk (by simp)
  | cons v rest ih =>
    intro i prev k hk hbefore hflip
    cases k with
    | zero =>
      have hm : env.moving_at i = true := by simpa using hflip
      simp [trace_path, hm, dispatched_vectors]
    | succ m =>
      have h0 := hbefore 0 (Nat.succ_pos _)
      have hm0 : env.moving_at i = false := by simpa using h0.1
      have hd0 : env.dispatch_at i ≠ DispatchOutcome.failDisconnected := by
        simpa using h0.2
      have hshift : ∀ j, j < m → env.moving_at (i + 1 + j) = false ∧
          env.dispatch_at (i + 1 + j) ≠ DispatchOutcome.failDisconnected := by
        intro j hj
        have := hbefore (j + 1) (Nat.succ_lt_succ hj)
        have e : i + 1 + j = i + (j + 1) := by omega
        rw [e]; exact this
      have hflip2 : env.moving_at (i + 1 + m) = true := by
        have e : i + 1 + m = i + (m + 1) := by omega
        rw [e]; exact hflip
      have hm : m < rest.length := by simpa using Nat.lt_of_succ_lt_succ hk
      cases hd : env.dispatch_at i with
      | ok =>
        simp [trace_path, hm0, hd, dispatched_vectors, ih (i + 1) v m hm hshift hflip2]
      | failConnected =>
        simp [trace_path, hm0, hd, dispatched_vectors, ih (i + 1) prev m hm hshift hflip2]
      | failDisconnected => exact absurd hd hd0

/-- Witness for trace_path_abort_on_move: the flag is observed clear at
step 0 and set at step 1, so of three points only the first is attempted. -/
theorem trace_path_abort_on_move_witness :
    ((1 : Nat) < 3 ∧
      (∀ j, j < 1 → envFlagFlips.moving_at (0 + j) = false ∧
        envFlagFlips.dispatch_at (0 + j) ≠ DispatchOutcome.failDisconnected) ∧
      envFlagFlips.moving_at (0 + 1) = true ∧
      dispatched_vectors
        (trace_path envFlagFlips true 0 origin [⟨1, 1⟩, ⟨2, 2⟩, ⟨3, 3⟩]).events =
          ([⟨1, 1⟩, ⟨2, 2⟩, ⟨3, 3⟩] : List Vector).take 1) :=
  ⟨by decide, by decide, by decide,
    trace_path_abort_on_move envFlagFlips [⟨1, 1⟩, ⟨2, 2⟩, ⟨3, 3⟩] 0 origin 1
      (by decide) (by decide) (by decide)⟩

/-- Helper: when the selector-resolution phase succeeds, `move` is exactly
its resolved phase on the flag-set state. -/
theorem move_eq_move_resolved (env : Env) (st : CursorState) (sel : Sel)
    (pad wfs : Option ℚ) (i : Nat) (hres : sel_resolves env sel wfs = true) :
    move env st sel pad wfs i = move_resolved env (toggle_random_move st false) pad i := by
  cases sel with
  | handle => rfl
  | str s =>
    simp only [sel_resolves, Bool.and_eq_true, Bool.or_eq_true,
      Bool.not_eq_true'] at hres
    obtain ⟨hw, hf⟩ := hres
    rcases hw with hw | hw <;> simp [move, hw, hf]

/-- Helper: when scrolling succeeds and the element has a bounding box, the
resolved phase of `move` completes without error, ends at the sampled
in-box destination, and clears the flag. -/
theorem move_resolved_success (env : Env) (st : CursorState) (pad : Option ℚ)
    (i : Nat) (box : Box) (hscroll : env.scrollOk = true)
    (hbox : env.boundingBox = some box) :
    (move_resolved env st pad i).error = none ∧
    (move_resolved env st pad i).st.previous = env.get_random_box_point box pad ∧
    (move_resolved env st pad i).st.moving = false := by
  cases hov : env.should_overshoot st.previous (env.get_random_box_point box pad) <;>
    simp [move_resolved, hscroll, hbox, hov]

/-- C3 (amended): inside trace_path, `previous` is updated only by
successful dispatches — its final value is the starting position or a
point whose dispatch succeeded; but a `move` whose target resolves (and
which therefore completes without error) then sets `previous` to the
resolved destination, and a `random_move` iteration that sampled a point
sets `previous` to that point, in both cases regardless of whether any
dispatch of that point succeeded. -/
theorem previous_update_semantics :
    (∀ (env : Env) (ab : Bool) (i : Nat) (prev : Vector) (vs : List Vector),
      (trace_path env ab i prev vs).previous = prev ∨
        Event.dispatch (trace_path env ab i prev vs).previous DispatchOutcome.ok ∈
          (trace_path env ab i prev vs).events) ∧
    (∀ (env : Env) (st : CursorState) (sel : Sel) (pad wfs : Option ℚ) (i : Nat)
      (box : Box), sel_resolves env sel wfs = true → env.scrollOk = true →
      env.boundingBox = some box →
      (move env st sel pad wfs i).error = none ∧
      (move env st sel pad wfs i).st.previous = env.get_random_box_point box pad) ∧
    (∀ (env : Env) (st : CursorState) (rand : Vector), st.moving = false →
      env.random_page_point = some rand →
      (random_move env st).st.previous = rand) := by
  refine ⟨?_, ?_, ?_⟩
  · intro env ab i prev vs
    induction vs generalizing i prev with
    | nil => exact Or.inl rfl
    | cons v rest ih =>
      simp only [trace_path]
      split
      · exact Or.inl rfl
      · cases hd : env.dispatch_at i with
        | ok =>
          rcases ih (i + 1) v with h | h
          · exact Or.inr (by simp [h])
          · exact Or.inr (List.mem_cons_of_mem _ h)
        | failConnected =>
          rcases ih (i + 1) prev with h | h
          · exact Or.inl h
          · exact Or.inr (List.mem_cons_of_mem _ h)
        | failDisconnected => exact Or.inl rfl
  · intro env st sel pad wfs i box hres hscroll hbox
    rw [move_eq_move_resolved env st sel pad wfs i hres]
    have h := move_resolved_success env (toggle_random_move st false) pad i box
      hscroll hbox
    exact ⟨h.1, h.2.1⟩
  · intro env st rand hmov hpt
    cases hok : env.ensureFutureOk <;>
      simp [random_move, hmov, hpt, hok]

/-- Witness for previous_update_semantics: in the all-succeeding
environment a `move` to the resolved element ends with `previous` at the
sampled in-box point (5, 5), and a `random_move` iteration ends with
`previous` at the sampled page point (3, 3). -/
theorem previous_update_semantics_witness :
    (sel_resolves envOk Sel.handle none = true ∧ envOk.scrollOk = true ∧
      envOk.boundingBox = some ⟨0, 0, 10, 10⟩ ∧
      ((move envOk (ghost_cursor_init origin) Sel.handle none none 0).error = none ∧
        (move envOk (ghost_cursor_init origin) Sel.handle none none 0).st.previous =
          envOk.get_random_box_point ⟨0, 0, 10, 10⟩ none)) ∧
    ((ghost_cursor_init origin).moving = false ∧
      envOk.random_page_point = some ⟨3, 3⟩ ∧
      (random_move envOk (ghost_cursor_init origin)).st.previous = ⟨3, 3⟩) :=
  ⟨⟨by decide, by decide, by decide,
    previous_update_semantics.2.1 envOk (ghost_cursor_init origin) Sel.handle none none 0
      ⟨0, 0, 10, 10⟩ (by decide) (by decide) (by decide)⟩,
   ⟨by decide, by decide,
    previous_update_semantics.2.2 envOk (ghost_cursor_init origin) ⟨3, 3⟩
      (by decide) (by decide)⟩⟩

/-- C7 (confirmed): one iteration of the background random_move loop
always returns normally — the source wraps the whole body (point sampling,
tracing, sleeping, rescheduling) in a bare try/except, which the
embedding reflects by giving random_move no exception outcome at all, only
a `caught` field recording a swallowed failure — and it reschedules itself
exactly when nothing was caught: on any failure it stops silently without
rescheduling. -/
theorem random_move_never_raises (env : Env) (st : CursorState) :
    (random_move env st).rescheduled = !(random_move env st).caught := by
  cases hmov : st.moving <;> cases hpt : env.random_page_point <;>
    cases hok : env.ensureFutureOk <;>
      simp [random_move, hmov, hpt, hok]

/-- Helper: the resolved phase of `move` either succeeds with the flag
cleared, or raises leaving the state it was given untouched. -/
theorem move_resolved_flag (env : Env) (st : CursorState) (pad : Option ℚ)
    (i : Nat) :
    ((move_resolved env st pad i).error = none ∧
      (move_resolved env st pad i).st.moving = false) ∨
    ((move_resolved env st pad i).error ≠ none ∧
      (move_resolved env st pad i).st = st) := by
  cases hs : env.scrollOk
  · right; simp [move_resolved, hs]
  · cases hbox : env.boundingBox with
    | none => right; simp [move_resolved, hs, hbox]
    | some box =>
      left
      cases hov : env.should_overshoot st.previous (env.get_random_box_point box pad) <;>
        simp [move_resolved, hs, hbox, hov]

/-- Helper: after `move`, the suppression flag is set exactly when an
exception escaped. -/
theorem move_moving_iff_error (env : Env) (st : CursorState) (sel : Sel)
    (pad wfs : Option ℚ) (i : Nat) :
    (move env st sel pad wfs i).st.moving = (move env st sel pad wfs i).error.isSome := by
  have hres : (move_resolved env (toggle_random_move st false) pad i).st.moving =
      (move_resolved env (toggle_random_move st false) pad i).error.isSome := by
    rcases move_resolved_flag env (toggle_random_move st false) pad i with
      ⟨he, hm⟩ | ⟨he, hst⟩
    · rw [he, hm]; rfl
    · rw [hst]
      cases hee : (move_resolved env (toggle_random_move st false) pad i).error with
      | none => exact absurd hee he
      | some e => rfl
  cases sel with
  | handle => exact hres
  | str s =>
    simp only [move]
    split
    · rfl
    · split
      · rfl
      · exact hres

/-- Helper: after `click`, the suppression flag is set exactly when an
exception escaped (only the embedded `move` can raise). -/
theorem click_moving_iff_error (env : Env) (st : CursorState) (osel : Option Sel)
    (pad wfs wfc : Option ℚ) :
    (click env st osel pad wfs wfc).st.moving =
      (click env st osel pad wfs wfc).error.isSome := by
  cases osel with
  | none => simp [click, click_tail, toggle_random_move]
  | some sel =>
    simp only [click]
    have h := move_moving_iff_error env (toggle_random_move st false) sel pad wfs 0
    cases hm : (move env (toggle_random_move st false) sel pad wfs 0).error with
    | some e =>
      rw [hm] at h
      simp [hm, h]
    | none => simp [hm, click_tail, toggle_random_move]

/-- C2 (amended): the suppression flag returns to idle on every normal
completion — a move or click that completes without raising, and every
move_to, ends with moving = false — but on error exits the flag is not
cleared: when move (directly, or inside click) raises, moving is still
true when the exception reaches the caller. -/
theorem suppression_flag_exit_semantics :
    (∀ (env : Env) (st : CursorState) (sel : Sel) (pad wfs : Option ℚ) (i : Nat),
      ((move env st sel pad wfs i).error = none →
        (move env st sel pad wfs i).st.moving = false) ∧
      ((move env st sel pad wfs i).error ≠ none →
        (move env st sel pad wfs i).st.moving = true)) ∧
    (∀ (env : Env) (st : CursorState) (osel : Option Sel) (pad wfs wfc : Option ℚ),
      ((click env st osel pad wfs wfc).error = none →
        (click env st osel pad wfs wfc).st.moving = false) ∧
      ((click env st osel pad wfs wfc).error ≠ none →
        (click env st osel pad wfs wfc).st.moving = true)) ∧
    (∀ (env : Env) (st : CursorState) (dx dy : ℚ),
      (move_to env st dx dy).1.moving = false) := by
  refine ⟨?_, ?_, ?_⟩
  · intro env st sel pad wfs i
    have h := move_moving_iff_error env st sel pad wfs i
    constructor
    · intro he; rw [he] at h; simpa using h
    · intro he
      cases hee : (move env st sel pad wfs i).error with
      | none => exact absurd hee he
      | some e => rw [hee] at h; simpa using h
  · intro env st osel pad wfs wfc
    have h := click_moving_iff_error env st osel pad wfs wfc
    constructor
    · intro he; rw [he] at h; simpa using h
    · intro he
      cases hee : (click env st osel pad wfs wfc).error with
      | none => exact absurd hee he
      | some e => rw [hee] at h; simpa using h
  · intro env st dx dy
    rfl

/-- Witness for suppression_flag_exit_semantics: a successful move ends
with the flag clear, and a move whose selector is not found raises with
the flag still set. -/
theorem suppression_flag_exit_semantics_witness :
    ((move envOk (ghost_cursor_init origin) Sel.handle none none 0).error = none ∧
      (move envOk (ghost_cursor_init origin) Sel.handle none none 0).st.moving = false) ∧
    ((move envNotFound (ghost_cursor_init origin) (Sel.str (String.mk []))
        none none 0).error ≠ none ∧
      (move envNotFound (ghost_cursor_init origin) (Sel.str (String.mk []))
        none none 0).st.moving = true) :=
  ⟨⟨by decide,
    (suppression_flag_exit_semantics.1 envOk (ghost_cursor_init origin) Sel.handle
      none none 0).1 (by decide)⟩,
   ⟨by decide,
    (suppression_flag_exit_semantics.1 envNotFound (ghost_cursor_init origin)
      (Sel.str (String.mk [])) none none 0).2 (by decide)⟩⟩

/-- C5 (confirmed): composition of the motion traced by move on a resolved
target.  With destination the random in-box point: when should_overshoot
answers true, move traces path(previous, overshoot(destination,
overshoot_radius)) and then the correction path from that overshoot point
into the box of the target's dimensions re-anchored at the destination,
with the reduced overshoot_spread; when it answers false, move traces only
path(previous, destination). -/
theorem move_overshoot_composition (env : Env) (st : CursorState) (sel : Sel)
    (pad wfs : Option ℚ) (i : Nat) (box : Box)
    (hres : sel_resolves env sel wfs = true) (hscroll : env.scrollOk = true)
    (hbox : env.boundingBox = some box) :
    trace_calls (move env st sel pad wfs i).events =
      (if env.should_overshoot st.previous (env.get_random_box_point box pad) then
        [env.path_point st.previous
           (env.overshoot (env.get_random_box_point box pad) st.overshoot_radius),
         env.path_box (env.overshoot (env.get_random_box_point box pad) st.overshoot_radius)
           ⟨(env.get_random_box_point box pad).x, (env.get_random_box_point box pad).y,
             box.width, box.height⟩ st.overshoot_spread]
       else [env.path_point st.previous (env.get_random_box_point box pad)]) := by
  rw [move_eq_move_resolved env st sel pad wfs i hres]
  cases hov : env.should_overshoot st.previous (env.get_random_box_point box pad) <;>
    simp [move_resolved, hscroll, hbox, hov, toggle_random_move, trace_calls,
      trace_calls_append, trace_calls_trace_path]

/-- Witness for move_overshoot_composition: in the environment whose
overshoot oracle answers true, a move traces first the path to the
overshoot point (7, 7) and then the correction path landing at (5, 5). -/
theorem move_overshoot_composition_witness :
    sel_resolves envOvershootYes Sel.handle none = true ∧
    envOvershootYes.scrollOk = true ∧
    envOvershootYes.boundingBox = some ⟨0, 0, 10, 10⟩ ∧
    trace_calls (move envOvershootYes (ghost_cursor_init origin) Sel.handle
        none none 0).events = [[⟨7, 7⟩], [⟨5, 5⟩]] :=
  ⟨by decide, by decide, by decide,
    (move_overshoot_composition envOvershootYes (ghost_cursor_init origin) Sel.handle
      none none 0 ⟨0, 0, 10, 10⟩ (by decide) (by decide) (by decide)).trans (by decide)⟩

/-- C6 (confirmed): a move whose target cannot be resolved raises an
explicit error to the caller and aborts before any motion: when the
selector query finds no element, the element-not-found exception escapes;
when the bounding box is unavailable after scrolling into view, the
dimensions exception escapes; in both cases the event log is empty — no
path was traced and no pointer event was dispatched. -/
theorem move_resolution_failure_aborts :
    (∀ (env : Env) (st : CursorState) (s : String) (pad wfs : Option ℚ) (i : Nat),
      (truthy wfs = true → env.waitForSelectorOk = true) →
      env.selectorFound = false →
      (move env st (Sel.str s) pad wfs i).error = some MoveError.elementNotFound ∧
      (move env st (Sel.str s) pad wfs i).events = []) ∧
    (∀ (env : Env) (st : CursorState) (sel : Sel) (pad wfs : Option ℚ) (i : Nat),
      sel_resolves env sel wfs = true → env.scrollOk = true →
      env.boundingBox = none →
      (move env st sel pad wfs i).error = some MoveError.boundingBoxUnavailable ∧
      (move env st sel pad wfs i).events = []) := by
  constructor
  · intro env st s pad wfs i hw hnf
    cases htr : truthy wfs
    · simp [move, htr, hnf]
    · simp [move, htr, hw htr, hnf]
  · intro env st sel pad wfs i hres hscroll hnone
    rw [move_eq_move_resolved env st sel pad wfs i hres]
    simp [move_resolved, hscroll, hnone]

/-- Witness for move_resolution_failure_aborts: the not-found environment
raises element-not-found with no events; the missing-bounding-box
environment raises the dimensions error with no events. -/
theorem move_resolution_failure_aborts_witness :
    ((truthy none = true → envNotFound.waitForSelectorOk = true) ∧
      envNotFound.selectorFound = false ∧
      ((move envNotFound (ghost_cursor_init origin) (Sel.str (String.mk []))
          none none 0).error = some MoveError.elementNotFound ∧
        (move envNotFound (ghost_cursor_init origin) (Sel.str (String.mk []))
          none none 0).events = [])) ∧
    (sel_resolves envBoxNone Sel.handle none = true ∧
      envBoxNone.scrollOk = true ∧ envBoxNone.boundingBox = none ∧
      ((move envBoxNone (ghost_cursor_init origin) Sel.handle none none 0).error =
          some MoveError.boundingBoxUnavailable ∧
        (move envBoxNone (ghost_cursor_init origin) Sel.handle none none 0).events = [])) :=
  ⟨⟨by decide, by decide,
    move_resolution_failure_aborts.1 envNotFound (ghost_cursor_init origin)
      (String.mk []) none none 0 (by decide) (by decide)⟩,
   ⟨by decide, by decide, by decide,
    move_resolution_failure_aborts.2 envBoxNone (ghost_cursor_init origin) Sel.handle
      none none 0 (by decide) (by decide) (by decide)⟩⟩

/-- C8 (amended): after a successful move phase, click on a non-touch
surface dispatches a press and then a release, sleeping wait_for_click/1000
seconds between them exactly when the caller supplied wait_for_click (and
inserting no hold delay otherwise — the hold is caller-specified, not
randomized); on a touch surface it dispatches a single tap at the
post-move position; in both cases it then sleeps the randomized pause
random.random()*2 and clears the suppression flag before returning. -/
theorem click_press_release_semantics (env : Env) (st0 : CursorState) (sel : Sel)
    (pad wfs wfc : Option ℚ) (b : Bool)
    (hm : (move env (toggle_random_move st0 false) sel pad wfs 0).error = none)
    (hq : (detect_mobile env 0 (toggle_random_move
      (move env (toggle_random_move st0 false) sel pad wfs 0).st false)).result = some b)
    (hdown : env.downOk = true) (hup : env.upOk = true) (htap : env.tapOk = true) :
    (click env st0 (some sel) pad wfs wfc).error = none ∧
    (click env st0 (some sel) pad wfs wfc).st.moving = false ∧
    (click env st0 (some sel) pad wfs wfc).events =
      (move env (toggle_random_move st0 false) sel pad wfs 0).events ++
      (detect_mobile env 0 (toggle_random_move
        (move env (toggle_random_move st0 false) sel pad wfs 0).st false)).events ++
      (if b then
        [Event.tap (move env (toggle_random_move st0 false) sel pad wfs 0).st.previous.x
           (move env (toggle_random_move st0 false) sel pad wfs 0).st.previous.y true]
       else
        [Event.mouseDown true] ++
          (match wfc with
           | some t => [Event.sleep (t / 1000)]
           | none => []) ++ [Event.mouseUp true]) ++
      [Event.sleep (env.rand_at 0 * 2)] := by
  cases b with
  | false =>
    refine ⟨?_, ?_, ?_⟩ <;>
      simp only [click, hm, click_tail, hq, hdown, hup] <;>
      simp [toggle_random_move, List.append_assoc]
  | true =>
    refine ⟨?_, ?_, ?_⟩ <;>
      simp only [click, hm, click_tail, hq, htap] <;>
      simp [toggle_random_move, List.append_assoc]

/-- Witness for click_press_release_semantics: a fully successful
non-touch click with wait_for_click = 100 holds for 100/1000 seconds
between press and release, then sleeps the randomized pause and clears
the flag. -/
theorem click_press_release_semantics_witness :
    ((move envOk (toggle_random_move (ghost_cursor_init origin) false) Sel.handle
        none none 0).error = none ∧
      (detect_mobile envOk 0 (toggle_random_move
        (move envOk (toggle_random_move (ghost_cursor_init origin) false) Sel.handle
          none none 0).st false)).result = some false ∧
      envOk.downOk = true ∧ envOk.upOk = true ∧ envOk.tapOk = true) ∧
    ((click envOk (ghost_cursor_init origin) (some Sel.handle) none none
        (some 100)).error = none ∧
      (click envOk (ghost_cursor_init origin) (some Sel.handle) none none
        (some 100)).st.moving = false ∧
      (click envOk (ghost_cursor_init origin) (some Sel.handle) none none
        (some 100)).events =
        (move envOk (toggle_random_move (ghost_cursor_init origin) false) Sel.handle
          none none 0).events ++
        (detect_mobile envOk 0 (toggle_random_move
          (move envOk (toggle_random_move (ghost_cursor_init origin) false) Sel.handle
            none none 0).st false)).events ++
        (if false then
          [Event.tap (move envOk (toggle_random_move (ghost_cursor_init origin) false)
              Sel.handle none none 0).st.previous.x
            (move envOk (toggle_random_move (ghost_cursor_init origin) false)
              Sel.handle none none 0).st.previous.y true]
         else
          [Event.mouseDown true] ++
            (match (some (100 : ℚ)) with
             | some t => [Event.sleep (t / 1000)]
             | none => []) ++ [Event.mouseUp true]) ++
        [Event.sleep (envOk.rand_at 0 * 2)]) :=
  ⟨⟨by decide, by decide, by decide, by decide, by decide⟩,
    click_press_release_semantics envOk (ghost_cursor_init origin) Sel.handle
      none none (some 100) false (by decide) (by decide) (by decide)
      (by decide) (by decide)⟩

/-- C9 (confirmed): create_cursor accepts a starting position, defaults it
to the origin point (0, 0) when omitted, and returns a ready controller
whose recorded position equals the given start (vector or dict), with the
suppression flag clear and mobile detection uncached. -/
theorem create_cursor_start_position :
    create_cursor_default.previous = origin ∧ origin = ⟨0, 0⟩ ∧
    (∀ v, (create_cursor (StartArg.vec v)).previous = v) ∧
    (∀ x y, (create_cursor (StartArg.dict x y)).previous = ⟨x, y⟩) ∧
    (∀ s, (create_cursor s).moving = false ∧ (create_cursor s).is_mobile = none) := by
  refine ⟨rfl, rfl, fun v => rfl, fun x y => rfl, fun s => ?_⟩
  cases s <;> exact ⟨rfl, rfl⟩

/-- Helper: once the mobile flag is cached, any number of further
detect_mobile calls return the cached value, issue no query, and leave
the state and the evaluate-oracle position untouched. -/
theorem detect_mobile_calls_cached (env : Env) (b : Bool) :
    ∀ (n q : Nat) (st : CursorState), st.is_mobile = some b →
      detect_mobile_calls env q st n = ⟨List.replicate n (some b), st, q, []⟩ := by
  intro n
  induction n with
  | zero => intro q st h; rfl
  | succ n ih =>
    intro q st h
    simp [detect_mobile_calls, detect_mobile, h, ih q st h, List.replicate]

/-- C10 (amended): at most one successful query is issued per controller —
when the cache is empty and the first evaluate succeeds with b, a sequence
of n+1 detect_mobile calls issues exactly one query, every call returns b,
and the cache then holds b; and whenever the cache holds b, further calls
issue no query at all and return b.  (Only an evaluate that raises caches
nothing, so the query can be reissued after a failure.) -/
theorem detect_mobile_caches (env : Env) (st : CursorState) (n : Nat) (b : Bool)
    (h0 : st.is_mobile = none) (hq : env.evaluate_mobile 0 = some b) :
    (detect_mobile_calls env 0 st (n + 1)).results = List.replicate (n + 1) (some b) ∧
    (detect_mobile_calls env 0 st (n + 1)).events = [Event.mobileQuery (some b)] ∧
    (detect_mobile_calls env 0 st (n + 1)).st.is_mobile = some b ∧
    (∀ (m q : Nat) (st2 : CursorState), st2.is_mobile = some b →
      detect_mobile_calls env q st2 m = ⟨List.replicate m (some b), st2, q, []⟩) := by
  have hcached := detect_mobile_calls_cached env b n 1
    { st with is_mobile := some b } rfl
  refine ⟨?_, ?_, ?_, fun m q st2 h2 => detect_mobile_calls_cached env b m q st2 h2⟩ <;>
    simp [detect_mobile_calls, detect_mobile, h0, hq, hcached, List.replicate]

/-- Witness for detect_mobile_caches: three calls on a fresh controller in
the all-succeeding environment issue exactly one query and all return
false. -/
theorem detect_mobile_caches_witness :
    ((ghost_cursor_init origin).is_mobile = none ∧
      envOk.evaluate_mobile 0 = some false) ∧
    ((detect_mobile_calls envOk 0 (ghost_cursor_init origin) 3).results =
        List.replicate 3 (some false) ∧
      (detect_mobile_calls envOk 0 (ghost_cursor_init origin) 3).events =
        [Event.mobileQuery (some false)] ∧
      (detect_mobile_calls envOk 0 (ghost_cursor_init origin) 3).st.is_mobile =
        some false) :=
  ⟨⟨by decide, by decide⟩,
    by
      have h := detect_mobile_caches envOk (ghost_cursor_init origin) 2 false
        (by decide) (by decide)
      exact ⟨h.1, h.2.1, h.2.2.1⟩⟩

end Ghost
